import Mathlib

/-!
Shallow embedding of the rule-engine core of `addons/misra.py` (a MISRA-C
style checker operating over a cppcheck dump): the essential-type inference
helpers, the operator-precedence table, the raw-token fallthrough state
machine (rule 16.3), the suppression registry, the error-reporting path and
the per-dump rule dispatch loop.  Python dictionaries are modelled as
association lists with first-match lookup and replace-or-append update;
Python `None` is modelled with `Option`; the mutable checker object is
modelled by explicit state passing.
-/

namespace Misra

/-! ### Python-dict and Python-string helpers -/

/-- First-match lookup in an association list (Python `d[k]` / `k in d`). -/
def dictLookup {k v : Type} [DecidableEq k] : List (k × v) → k → Option v
  | [], _ => none
  | (k0, v0) :: rest, key => if k0 = key then some v0 else dictLookup rest key

/-- Python `k in d`. -/
def dictContains {k v : Type} [DecidableEq k] (d : List (k × v)) (key : k) : Bool :=
  (dictLookup d key).isSome

/-- Python `d[k] = v`: replace the first binding of the key, else append. -/
def dictSet {k v : Type} [DecidableEq k] : List (k × v) → k → v → List (k × v)
  | [], key, val => [(key, val)]
  | (k0, v0) :: rest, key, val =>
    if k0 = key then (key, val) :: rest else (k0, v0) :: dictSet rest key val

/-- Whether `needle` is a prefix of `hay` (over characters). -/
def isPrefixChars : List Char → List Char → Bool
  | [], _ => true
  | _ :: _, [] => false
  | a :: as, b :: bs => a == b && isPrefixChars as bs

/-- Whether `needle` occurs contiguously in `hay` (over characters). -/
def isInfixChars (needle : List Char) : List Char → Bool
  | [] => isPrefixChars needle []
  | hay@(_ :: rest) => isPrefixChars needle hay || isInfixChars needle rest

/-- Python `needle in hay` for strings: substring containment. -/
def pyIn (needle hay : String) : Bool :=
  isInfixChars needle.toList hay.toList

/-- Python `s.startswith(p)`. -/
def pyStartsWith (s p : String) : Bool :=
  isPrefixChars p.toList s.toList

/-- Python `s[:n]`. -/
def pyTake (s : String) (n : Nat) : String :=
  String.mk (s.toList.take n)

/-- Python `s.lower()` (ASCII case folding, as used on comment tokens). -/
def pyLower (s : String) : String :=
  String.mk (s.toList.map Char.toLower)

/-! ### Program-model entities (cppcheckdata classes, as far as the engine
reads them): `ValueType`, type-declaration tokens, `Variable`, and an
expression-tree view of a decorated `Token` (fields `str`, `astOperand1`,
`astOperand2`, `valueType`, `variable`, `isAssignmentOp`).  A Python `None`
token is the `null` constructor. -/

structure ValueType where
  /-- base type, e.g. `bool`, `float` (field `type` in the source) -/
  type : String
  /-- `sign`: `'signed'`/`'unsigned'`, `none` models Python `None`/`''` (falsy) -/
  sign : Option String
  /-- `pointer`: pointer depth -/
  pointer : Nat
  /-- `typeScope.className` when a type scope is attached, else `none` (falsy) -/
  typeScope : Option String
  deriving DecidableEq, Repr

/-- A token of a variable's type-declaration run (`variable.typeStartToken`
followed by its `next` chain, modelled as a list). -/
structure TypeTok where
  str : String
  isName : Bool
  valueType : Option ValueType
  deriving DecidableEq, Repr

/-- The slice of a cppcheckdata `Variable` the essential-type code reads. -/
structure Var where
  typeStartToken : List TypeTok
  deriving DecidableEq, Repr

/-- AST-decorated expression token.  `null` models Python `None`; `mk` carries
the fields `str`, `astOperand1`, `astOperand2`, `valueType`, `variable`
(here `var`, since `variable` is reserved in Lean), `isAssignmentOp`. -/
inductive Expr where
  | null : Expr
  | mk (str : String) (astOperand1 astOperand2 : Expr) (valueType : Option ValueType)
      (var : Option Var) (isAssignmentOp : Bool) : Expr
  deriving DecidableEq, Repr

/-- `expr.valueType` (reading `null` as `None`). -/
def Expr.vt : Expr → Option ValueType
  | .null => none
  | .mk _ _ _ vt _ _ => vt

/-- `expr.astOperand1.valueType and expr.astOperand1.valueType.pointer > 0`. -/
def pointerPositive (e : Expr) : Bool :=
  match e.vt with
  | some v => v.pointer > 0
  | none => false

/-! ### `getEssentialTypeCategory` (source lines 108-142) -/

/-- The `while typeToken:` walk of `getEssentialTypeCategory` over the
variable's type-declaration tokens; `some r` is an early `return r`,
`none` means the loop fell through. -/
def etcWalk : List TypeTok → Option String
  | [] => none
  | t :: ts =>
    match t.valueType with
    | some v =>
      if v.type = "bool" then some v.type
      else if ["float", "double", "long double"].contains v.type then some "float"
      else
        match v.sign with
        | some sg => some sg
        | none => etcWalk ts
    | none => etcWalk ts

/-- Final `if expr.valueType: return expr.valueType.sign` / `return None`. -/
def etcSign : Option ValueType → Option String
  | some v => v.sign
  | none => none

/-- `if expr.variable:` walk, then the trailing sign fallback. -/
def etcVarThenSign (vt : Option ValueType) (vr : Option Var) : Option String :=
  match vr with
  | some v =>
    match etcWalk v.typeStartToken with
    | some r => some r
    | none => etcSign vt
  | none => etcSign vt

/-- `if expr.valueType and expr.valueType.typeScope: return "enum<...>"`,
then the variable walk and sign fallback. -/
def etcTail (vt : Option ValueType) (vr : Option Var) : Option String :=
  match vt with
  | some v =>
    match v.typeScope with
    | some cn => some ("enum<" ++ cn ++ ">")
    | none => etcVarThenSign vt vr
  | none => etcVarThenSign vt vr

/-- `getEssentialTypeCategory(expr)`: MISRA essential-type category of an
expression.  Comparison/logical operators give `bool`; `<<`/`>>` inherit the
left operand's category; single-character arithmetic/bitwise operators give
the shared operand category, else the expression's computed sign; then the
enum-scope, declared-variable and sign fallbacks. -/
def getEssentialTypeCategory : Expr → Option String
  | .null => none
  | .mk s o1 o2 vt vr _ =>
    if s = "," then getEssentialTypeCategory o2
    else if ["<", "<=", "==", "!=", ">=", ">", "&&", "||", "!"].contains s then some "bool"
    else if s = "<<" ∨ s = ">>" then getEssentialTypeCategory o1
    else
      let arithEarly : Option (Option String) :=
        if s.length = 1 ∧ pyIn s "+-*/%&|^" then
          let e1 := getEssentialTypeCategory o1
          let e2 := getEssentialTypeCategory o2
          if e1.isSome ∧ e2.isSome ∧ e1 = e2 then some e1
          else
            match vt with
            | some v => some v.sign
            | none => none
        else none
      match arithEarly with
      | some r => r
      | none => etcTail vt vr

/-! ### `getEssentialType` (source lines 159-191) -/

/-- Python `list.index` wrapped in try/except: position of the first
occurrence, `none` on `ValueError`. -/
def listIndex (xs : List String) (x : String) : Option Nat :=
  match xs with
  | [] => none
  | y :: ys => if y = x then some 0 else (listIndex ys x).map (· + 1)

/-- The integer-rank list of `getEssentialType`. -/
def essentialTypes : List String :=
  ["bool", "char", "short", "int", "long", "long long"]

/-- The `while typeToken and typeToken.isName:` walk of `getEssentialType`. -/
def etWalk : List TypeTok → Option String
  | [] => none
  | t :: ts =>
    if t.isName then
      if ["char", "short", "int", "long", "float", "double"].contains t.str then some t.str
      else etWalk ts
    else none

/-- `getEssentialType(expr)`: declared-rank walk for variables; for binary
arithmetic/bitwise/shift/conditional expressions, `None` on a pointer
operand, else the higher-ranked of the two operand types; `~` passes the
first operand through. -/
def getEssentialType : Expr → Option String
  | .null => none
  | .mk s o1 o2 _ vr _ =>
    match vr with
    | some v => etWalk v.typeStartToken
    | none =>
      if o1 ≠ Expr.null ∧ o2 ≠ Expr.null ∧
          ["+", "-", "*", "/", "%", "&", "|", "^", ">>", "<<", "?", ":"].contains s then
        if pointerPositive o1 then none
        else if pointerPositive o2 then none
        else
          match getEssentialType o1, getEssentialType o2 with
          | some e1, some e2 =>
            match listIndex essentialTypes e1, listIndex essentialTypes e2 with
            | some i1, some i2 =>
              if i2 ≥ i1 then some (essentialTypes.getD i2 "")
              else some (essentialTypes.getD i1 "")
            | _, _ => none
          | _, _ => none
      else if s = "~" then getEssentialType o1
      else none

/-! ### `getPrecedence` (source lines 358-389) -/

/-- `getPrecedence(expr)`: C-grammar precedence bucket of a binary/ternary/
assignment operator token; 16 for `None` or a token missing an AST operand;
-1 for an unrecognized token with both operands. -/
def getPrecedence : Expr → Int
  | .null => 16
  | .mk s o1 o2 _ _ isAssignmentOp =>
    if o1 = Expr.null ∨ o2 = Expr.null then 16
    else if ["*", "/", "%"].contains s then 12
    else if ["+", "-"].contains s then 11
    else if ["<<", ">>"].contains s then 10
    else if ["<", ">", "<=", ">="].contains s then 9
    else if ["==", "!="].contains s then 8
    else if s = "&" then 7
    else if s = "^" then 6
    else if s = "|" then 5
    else if s = "&&" then 4
    else if s = "||" then 3
    else if ["?", ":"].contains s then 2
    else if isAssignmentOp then 1
    else if s = "," then 0
    else -1

/-! ### Raw-token stream machinery (source lines 48-53, 392-421, 1559-1605).
A raw token stream is a list of token texts; a token is its index; `next` is
index + 1, `previous` is index - 1. -/

/-- `simpleMatch(token, pattern)` with the pattern already split at spaces:
compare the token run starting at `i` against the literal words. -/
def simpleMatch (toks : List String) : Nat → List String → Bool
  | _, [] => true
  | i, p :: ps =>
    match toks[i]? with
    | none => false
    | some s => (s == p) && simpleMatch toks (i + 1) ps

/-- Forward scan of `findRawLink`: counts nesting of `tok1` and returns the
index of the matching `tok2`.  The `while token:` loop advances one index per
iteration and stops past the end of the stream, so it runs at most
`toks.length + 1 - i` iterations; `fuel` bounds the iteration count
(structural recursion in place of the loop) and the caller passes
`toks.length + 1`, which is always sufficient. -/
def rawLinkFwd (toks : List String) (tok1 tok2 : String) : Nat → Nat → Nat → Option Nat
  | 0, _, _ => none
  | fuel + 1, indent, i =>
    if i < toks.length then
      let s := toks.getD i ""
      if s = tok1 then rawLinkFwd toks tok1 tok2 fuel (indent + 1) (i + 1)
      else if s = tok2 then
        if indent ≤ 1 then some i else rawLinkFwd toks tok1 tok2 fuel (indent - 1) (i + 1)
      else rawLinkFwd toks tok1 tok2 fuel indent (i + 1)
    else none

/-- Backward scan of `findRawLink`: the `previous` chain ends below index 0,
after at most `i + 1 ≤ toks.length` iterations; the caller's fuel of
`toks.length + 1` is always sufficient. -/
def rawLinkBwd (toks : List String) (tok1 tok2 : String) : Nat → Nat → Nat → Option Nat
  | 0, _, _ => none
  | fuel + 1, indent, i =>
    if i < toks.length then
      let s := toks.getD i ""
      if s = tok1 then
        if i = 0 then none else rawLinkBwd toks tok1 tok2 fuel (indent + 1) (i - 1)
      else if s = tok2 then
        if indent ≤ 1 then some i
        else if i = 0 then none else rawLinkBwd toks tok1 tok2 fuel (indent - 1) (i - 1)
      else if i = 0 then none else rawLinkBwd toks tok1 tok2 fuel indent (i - 1)
    else none

/-- `findRawLink(token)`: resolve the matching bracket of a raw bracket token
by depth counting, forward for openers and backward for closers. -/
def findRawLink (toks : List String) (i : Nat) : Option Nat :=
  match toks[i]? with
  | none => none
  | some s =>
    if s = "\x7b" then rawLinkFwd toks "\x7b" "\x7d" (toks.length + 1) 0 i
    else if s = "(" then rawLinkFwd toks "(" ")" (toks.length + 1) 0 i
    else if s = "[" then rawLinkFwd toks "[" "]" (toks.length + 1) 0 i
    else if s = "\x7d" then rawLinkBwd toks "\x7d" "\x7b" (toks.length + 1) 0 i
    else if s = ")" then rawLinkBwd toks ")" "(" (toks.length + 1) 0 i
    else if s = "]" then rawLinkBwd toks "]" "[" (toks.length + 1) 0 i
    else none

/-- The `while prev and prev.str[:2] in ('//', '/*'):` comment-skipping walk
of `misra_16_3`, over the `previous` chain; the walk decrements the index and
stops at `None` below index 0, so fuel `toks.length + 1` (indices produced by
`findRawLink` are in range) is always sufficient. -/
def skipCommentsBwd (toks : List String) : Nat → Option Nat → Option Nat
  | _, none => none
  | 0, some _ => none
  | fuel + 1, some p =>
    if pyTake (toks.getD p "") 2 = "//" ∨ pyTake (toks.getD p "") 2 = "/*" then
      skipCommentsBwd toks fuel (if p = 0 then none else some (p - 1))
    else some p

/-- State of the rule 16.3 scanner: `state` is one of `STATE_NONE = 0`,
`STATE_BREAK = 1`, `STATE_OK = 2`, `STATE_SWITCH = 3`; `endSwitch` is
`end_swtich_token`; `reports` collects the token indices passed to
`reportError` (in call order). -/
structure FallthroughAcc where
  state : Nat
  endSwitch : Option Nat
  reports : List Nat
  deriving Repr, DecidableEq

/-- The `if`/`elif` chain of the `misra_16_3` loop body (everything after the
switch-border handling). -/
def misra_16_3_chain (toks : List String) (i : Nat) (acc : FallthroughAcc) :
    FallthroughAcc :=
  let s := toks.getD i ""
  if s = "break" ∨ s = "return" ∨ s = "throw" then { acc with state := 1 }
  else if s = ";" then
    if acc.state = 1 then { acc with state := 2 }
    else if i + 1 < toks.length ∧ acc.endSwitch = some (i + 1) then
      { acc with reports := acc.reports ++ [i + 1] }
    else { acc with state := 0 }
  else if pyStartsWith s "/*" ∨ pyStartsWith s "//" then
    if pyIn "fallthrough" (pyLower s) then { acc with state := 2 } else acc
  else if simpleMatch toks i ["[", "[", "fallthrough", "]", "]", ";"] then
    { acc with state := 1 }
  else if s = "\x7b" then { acc with state := 2 }
  else if s = "\x7d" ∧ acc.state = 2 then
    let prevAfterOpen : Option Nat :=
      match findRawLink toks i with
      | some p => skipCommentsBwd toks (toks.length + 1) (if p = 0 then none else some (p - 1))
      | none => none
    match prevAfterOpen with
    | none => { acc with state := 0 }
    | some p =>
      if ¬ pyIn (toks.getD p "") ":;\x7b\x7d" then { acc with state := 0 } else acc
  else if s = "case" ∨ s = "default" then
    if acc.state ≠ 2 then { acc with state := 2, reports := acc.reports ++ [i] }
    else { acc with state := 2 }
  else acc

/-- One iteration of the `for token in rawTokens:` loop of `misra_16_3`:
switch detection, switch-border `continue` handling, then the chain. -/
def misra_16_3_step (toks : List String) (acc : FallthroughAcc) (i : Nat) :
    FallthroughAcc :=
  let s := toks.getD i ""
  let acc := if s = "switch" then { acc with state := 3 } else acc
  if acc.state = 3 then
    if s = "\x7b" then
      misra_16_3_chain toks i { acc with endSwitch := findRawLink toks i }
    else acc
  else misra_16_3_chain toks i acc

/-- `misra_16_3(rawTokens)`: the switch-fallthrough state machine; returns
the indices of the tokens reported (rule 16.3), in report order. -/
def misra_16_3 (toks : List String) : List Nat :=
  ((List.range toks.length).foldl (misra_16_3_step toks) ⟨0, none, []⟩).reports

/-! ### Suppression registry (source lines 2056-2206, 611-631).
`suppressedRules` is a dict keyed by rule number (hundreds format); its value
is a dict keyed by normalized file name (`none` = global sentinel) whose
value is a list of items, each either `none` (whole-file sentinel) or a
`(lineNumber, symbolName)` pair. -/

/-- A `(lineNumber, symbolName)` suppression scope entry. -/
abbrev LineSymbol := Option Int × Option String

/-- An item of a per-file suppression list: `none` = whole file. -/
abbrev RuleItem := Option LineSymbol

/-- The per-rule dict: normalized file name (or global sentinel) → items. -/
abbrev FileDict := List (Option String × List RuleItem)

/-- The whole registry: rule number → `FileDict`. -/
abbrev SuppressedRules := List (Nat × FileDict)

/-- `remove_file_prefix(file_path, prefix)`: strip a leading path piece and
any leftover directory separators (source lines 611-631; the source calls
the second argument `prefix`, a reserved word here). -/
def removeFilePfx (file_path pfx : String) : String :=
  if pyStartsWith file_path pfx then
    String.mk ((file_path.toList.drop pfx.length).dropWhile (fun c => c == '\\' || c == '/'))
  else file_path

/-- `if lineNumber is not None or symbolName is not None: line_symbol =
(lineNumber, symbolName) else: line_symbol = None`. -/
def mkLineSymbol (lineNumber : Option Int) (symbolName : Option String) : RuleItem :=
  if lineNumber.isSome ∨ symbolName.isSome then some (lineNumber, symbolName) else none

/-- The duplicate scan of `addSuppressedRule`: `for each in ruleItemList:`
comparing `each[0]`/`each[1]` against the new `(line, symbol)` pair,
skipping `None` items. -/
def ruleItemMatched (ruleItemList : List RuleItem) (ls : LineSymbol) : Bool :=
  ruleItemList.any (fun each =>
    match each with
    | some e => e.1 = ls.1 ∧ e.2 = ls.2
    | none => false)

/-- The tail of `addSuppressedRule` for an existing rule-item list: append
the item unless it is already present (`None` via list membership, a pair
via the duplicate scan). -/
def addRuleItem (ruleItemList : List RuleItem) : RuleItem → List RuleItem
  | none => if none ∈ ruleItemList then ruleItemList else ruleItemList ++ [none]
  | some ls =>
    if ruleItemMatched ruleItemList ls then ruleItemList else ruleItemList ++ [some ls]

/-- `addSuppressedRule(ruleNum, fileName, lineNumber, symbolName)`.
`os.path.expanduser`/`os.path.normpath` are external library calls; they are
abstracted as the path-normalization function `norm` (the source's
`normalized_filename` is `fileName.map norm`). -/
def addSuppressedRule (norm : String → String) (sr : SuppressedRules) (ruleNum : Nat)
    (fileName : Option String) (lineNumber : Option Int) (symbolName : Option String) :
    SuppressedRules :=
  match dictLookup sr ruleNum with
  | none =>
    dictSet sr ruleNum [(fileName.map norm, [mkLineSymbol lineNumber symbolName])]
  | some fileDict =>
    match dictLookup fileDict (fileName.map norm) with
    | none =>
      dictSet sr ruleNum
        (dictSet fileDict (fileName.map norm) [mkLineSymbol lineNumber symbolName])
    | some ruleItemList =>
      dictSet sr ruleNum (dictSet fileDict (fileName.map norm)
        (addRuleItem ruleItemList (mkLineSymbol lineNumber symbolName)))

/-- The filename normalization at the top of `isRuleSuppressed`: strip the
configured prefix if one is set, else take the base name
(`os.path.basename` is external, abstracted as `basename`). -/
def computeFilename (filePfx : Option String) (basename : String → String)
    (file_path : Option String) : Option String :=
  match file_path with
  | none => none
  | some fp =>
    match filePfx with
    | some pfx => some (removeFilePfx fp pfx)
    | none => some (basename fp)

/-- `isRuleSuppressed(file_path, linenr, ruleNum)`: global sentinel, then
whole-file sentinel, then a linear scan matching only the line number
(symbols are ignored by the source, marked TODO there). -/
def isRuleSuppressed (filePfx : Option String) (basename : String → String)
    (sr : SuppressedRules) (file_path : Option String) (linenr : Option Int)
    (ruleNum : Nat) : Bool :=
  let filename := computeFilename filePfx basename file_path
  match dictLookup sr ruleNum with
  | none => false
  | some fileDict =>
    if dictContains fileDict none then true
    else
      match dictLookup fileDict filename with
      | none => false
      | some ruleItemList =>
        if none ∈ ruleItemList then true
        else ruleItemList.any (fun each =>
          match each with
          | some e => e.1 = linenr
          | none => false)

/-- `isRuleGloballySuppressed(rule_num)`. -/
def isRuleGloballySuppressed (sr : SuppressedRules) (rule_num : Nat) : Bool :=
  match dictLookup sr rule_num with
  | none => false
  | some fileDict => dictContains fileDict none

/-! ### Reporting (source lines 640-666, 2277-2304, 2425-2433).
The mutable checker object is threaded explicitly; the cppcheckdata
reporting sink is modelled as an output list. -/

/-- The fields of a report location that `reportError` reads. -/
structure Location where
  file : String
  linenr : Int
  deriving DecidableEq, Repr

/-- An entry of the rule-text catalog (source class `Rule`): `text`,
`misra_severity` (`""` when unset, i.e. falsy), and the constant
`cppcheck_severity` property (always `'style'`, kept as data). -/
structure RuleText where
  text : String
  misra_severity : String
  cppcheck_severity : String
  deriving DecidableEq, Repr

/-- One event sent to the `cppcheckdata.reportError` sink:
`(location, severity, message, addon, errorId, misra_severity)`. -/
structure SinkEvent where
  location : Location
  severity : String
  message : String
  addon : String
  errorId : String
  misra_severity : String
  deriving DecidableEq, Repr

/-- The checker state read and written by `reportError`/`executeCheck`:
`settings.verify`, `verify_actual`, the suppression registry and stats, the
rule-text catalog, the per-severity violation buckets, the configured file
prefix, and the reporting sink. -/
structure Checker where
  verify : Bool
  verify_actual : List String
  suppressedRules : SuppressedRules
  suppressionStats : List (Nat × Nat)
  ruleTexts : List (Nat × RuleText)
  violations : List (String × List String)
  filePfx : Option String
  output : List SinkEvent
  deriving Repr

/-- `reportError(location, num1, num2)`: verify mode records
`"linenr:num1.num2"` in `verify_actual`; otherwise a suppressed violation
only bumps `suppressionStats`; otherwise the message is taken from the
rule-text catalog (generic when the catalog is empty; silently dropped when
the catalog is non-empty but lacks the rule), emitted to the sink, and
recorded in the per-severity violation buckets. -/
def reportError (basename : String → String) (c : Checker) (location : Location)
    (num1 num2 : Nat) : Checker :=
  let ruleNum := num1 * 100 + num2
  if c.verify then
    { c with verify_actual :=
        c.verify_actual ++ [toString location.linenr ++ ":" ++ toString num1 ++ "." ++ toString num2] }
  else if isRuleSuppressed c.filePfx basename c.suppressedRules (some location.file)
      (some location.linenr) ruleNum then
    { c with suppressionStats :=
        dictSet c.suppressionStats ruleNum ((dictLookup c.suppressionStats ruleNum).getD 0 + 1) }
  else
    let errorId := "c2012-" ++ toString num1 ++ "." ++ toString num2
    let emit (errmsg misra_severity cppcheck_severity : String) : Checker :=
      let ev : SinkEvent := ⟨location, cppcheck_severity, errmsg, "misra", errorId, misra_severity⟩
      let cur := (dictLookup c.violations misra_severity).getD []
      { c with output := c.output ++ [ev],
               violations := dictSet c.violations misra_severity (cur ++ ["misra-" ++ errorId]) }
    match dictLookup c.ruleTexts ruleNum with
    | some rt =>
      let misra_severity := if rt.misra_severity ≠ "" then rt.misra_severity else "Undefined"
      emit rt.text misra_severity rt.cppcheck_severity
    | none =>
      if c.ruleTexts.length = 0 then
        emit "misra violation (use --rule-texts=<file> to get proper output)" "Undefined" "style"
      else c

/-- `executeCheck(rule_num, check_function, arg)`: run the check unless the
rule is globally suppressed; the bound-method check mutating `self` is
modelled as a state transformer. -/
def executeCheck (c : Checker) (rule_num : Nat) (check_function : Checker → Checker) :
    Checker :=
  if ¬ isRuleGloballySuppressed c.suppressedRules rule_num then check_function c else c

/-! ### The `parseDump` dispatch loop (source lines 2459-2558), as an
execution trace: which `(rule number, check name)` pairs run, in order, for
a dump with a given configuration count and suppression registry. -/

/-- One `executeCheck` call site of `parseDump`: rule number, bound-method
name, and whether it is raw-token scoped (inside an `if cfgNumber == 1:`
guard, receiving `data.rawTokens`). -/
structure CheckCall where
  num : Nat
  name : String
  raw : Bool
  deriving DecidableEq, Repr

set_option maxHeartbeats 1000000 in
/-- The `executeCheck` call sites of the `parseDump` configuration loop, in
source order. -/
def parseDumpChecks : List CheckCall := [
  ⟨207, "misra_2_7", false⟩,
  ⟨301, "misra_3_1", true⟩, ⟨302, "misra_3_2", true⟩,
  ⟨401, "misra_4_1", true⟩, ⟨402, "misra_4_2", true⟩,
  ⟨501, "misra_5_1", false⟩, ⟨502, "misra_5_2", false⟩, ⟨503, "misra_5_3", false⟩,
  ⟨504, "misra_5_4", false⟩, ⟨505, "misra_5_5", false⟩,
  ⟨701, "misra_7_1", true⟩, ⟨703, "misra_7_3", true⟩,
  ⟨811, "misra_8_11", false⟩, ⟨812, "misra_8_12", false⟩,
  ⟨814, "misra_8_14", true⟩, ⟨905, "misra_9_5", true⟩,
  ⟨1001, "misra_10_1", false⟩, ⟨1004, "misra_10_4", false⟩,
  ⟨1006, "misra_10_6", false⟩, ⟨1008, "misra_10_8", false⟩,
  ⟨1103, "misra_11_3", false⟩, ⟨1104, "misra_11_4", false⟩,
  ⟨1105, "misra_11_5", false⟩, ⟨1106, "misra_11_6", false⟩,
  ⟨1107, "misra_11_7", false⟩, ⟨1108, "misra_11_8", false⟩,
  ⟨1109, "misra_11_9", false⟩,
  ⟨1201, "misra_12_1_sizeof", true⟩,
  ⟨1201, "misra_12_1", false⟩, ⟨1202, "misra_12_2", false⟩,
  ⟨1203, "misra_12_3", false⟩, ⟨1204, "misra_12_4", false⟩,
  ⟨1301, "misra_13_1", false⟩, ⟨1303, "misra_13_3", false⟩,
  ⟨1304, "misra_13_4", false⟩, ⟨1305, "misra_13_5", false⟩,
  ⟨1306, "misra_13_6", false⟩,
  ⟨1401, "misra_14_1", false⟩, ⟨1402, "misra_14_2", false⟩,
  ⟨1404, "misra_14_4", false⟩,
  ⟨1501, "misra_15_1", false⟩, ⟨1502, "misra_15_2", false⟩,
  ⟨1503, "misra_15_3", false⟩, ⟨1505, "misra_15_5", false⟩,
  ⟨1506, "misra_15_6", true⟩, ⟨1507, "misra_15_7", false⟩,
  ⟨1602, "misra_16_2", false⟩,
  ⟨1603, "misra_16_3", true⟩,
  ⟨1604, "misra_16_4", false⟩, ⟨1605, "misra_16_5", false⟩,
  ⟨1606, "misra_16_6", false⟩, ⟨1607, "misra_16_7", false⟩,
  ⟨1701, "misra_17_1", false⟩, ⟨1702, "misra_17_2", false⟩,
  ⟨1706, "misra_17_6", true⟩,
  ⟨1707, "misra_17_7", false⟩, ⟨1708, "misra_17_8", false⟩,
  ⟨1804, "misra_18_4", false⟩, ⟨1805, "misra_18_5", false⟩,
  ⟨1807, "misra_18_7", false⟩, ⟨1808, "misra_18_8", false⟩,
  ⟨1902, "misra_19_2", false⟩,
  ⟨2001, "misra_20_1", false⟩, ⟨2002, "misra_20_2", false⟩,
  ⟨2003, "misra_20_3", true⟩,
  ⟨2004, "misra_20_4", false⟩, ⟨2005, "misra_20_5", false⟩,
  ⟨2006, "misra_20_7", false⟩, ⟨2010, "misra_20_10", false⟩,
  ⟨2013, "misra_20_13", false⟩, ⟨2014, "misra_20_14", false⟩,
  ⟨2101, "misra_21_1", false⟩, ⟨2103, "misra_21_3", false⟩,
  ⟨2104, "misra_21_4", false⟩, ⟨2105, "misra_21_5", false⟩,
  ⟨2106, "misra_21_6", false⟩, ⟨2107, "misra_21_7", false⟩,
  ⟨2108, "misra_21_8", false⟩, ⟨2109, "misra_21_9", false⟩,
  ⟨2110, "misra_21_10", false⟩, ⟨2111, "misra_21_11", false⟩,
  ⟨2112, "misra_21_12", false⟩]

/-- The executions one `executeCheck` call site contributes for the
configuration numbered `cfgNumber` (1-based): skipped when raw-token scoped
and not the first configuration, or when globally suppressed. -/
def checkCallTrace (supp : SuppressedRules) (cfgNumber : Nat) (cc : CheckCall) :
    List (Nat × String) :=
  if cc.raw ∧ cfgNumber ≠ 1 then []
  else if isRuleGloballySuppressed supp cc.num then []
  else [(cc.num, cc.name)]

/-- The `(rule number, check name)` execution trace of the `parseDump`
configuration loop for a dump with `numConfigs` configurations, with the
suppression registry as populated before the loop. -/
def parseDumpTrace (supp : SuppressedRules) (numConfigs : Nat) : List (Nat × String) :=
  (List.range numConfigs).flatMap (fun i =>
    parseDumpChecks.flatMap (checkCallTrace supp (i + 1)))

/-! ### Concrete inputs used by the theorems -/

/-- Raw token stream `switch ( x ) { case 1 : foo ( ) ; case 2 : bar ( ) ; }`;
the `case 2` token is index 12. -/
def fallthroughStream : List String :=
  ["switch", "(", "x", ")", "\x7b", "case", "1", ":", "foo", "(", ")", ";",
   "case", "2", ":", "bar", "(", ")", ";", "\x7d"]

/-- The same stream with `break ;` inserted immediately before `case 2`;
the `case 2` token is index 14. -/
def fallthroughStreamBreak : List String :=
  ["switch", "(", "x", ")", "\x7b", "case", "1", ":", "foo", "(", ")", ";",
   "break", ";", "case", "2", ":", "bar", "(", ")", ";", "\x7d"]

/-! ### Association-list (Python dict) lemmas -/

theorem dictLookup_dictSet_self {k v : Type} [DecidableEq k] (d : List (k × v))
    (key : k) (val : v) : dictLookup (dictSet d key val) key = some val := by
  induction d with
  | nil => simp [dictLookup, dictSet]
  | cons p rest ih =>
    obtain ⟨k0, v0⟩ := p
    by_cases h : k0 = key
    · subst h; simp [dictLookup, dictSet]
    · simp [dictLookup, dictSet, h, ih]

theorem dictSet_lookup_eq {k v : Type} [DecidableEq k] (d : List (k × v)) (key : k)
    (val : v) (h : dictLookup d key = some val) : dictSet d key val = d := by
  induction d with
  | nil => simp [dictLookup] at h
  | cons p rest ih =>
    obtain ⟨k0, v0⟩ := p
    by_cases hk : k0 = key
    · subst hk
      simp [dictLookup] at h
      subst h
      simp [dictSet]
    · simp only [dictLookup, if_neg hk] at h
      simp [dictSet, hk, ih h]

theorem addRuleItem_singleton (it : RuleItem) : addRuleItem [it] it = [it] := by
  cases it with
  | none => simp [addRuleItem]
  | some p => simp [addRuleItem, ruleItemMatched]

theorem addRuleItem_absorbed (lst : List RuleItem) (it : RuleItem) :
    addRuleItem (addRuleItem lst it) it = addRuleItem lst it := by
  cases it with
  | none =>
    by_cases h : (none : RuleItem) ∈ lst
    · simp [addRuleItem, h]
    · simp [addRuleItem, h]
  | some p =>
    by_cases h : ruleItemMatched lst p = true
    · simp [addRuleItem, h]
    · have hm : ruleItemMatched (lst ++ [some p]) p = true := by
        simp [ruleItemMatched, List.any_append]
      simp [addRuleItem, h, hm]

theorem listIndex_getD (xs : List String) (x : String) (i : Nat)
    (h : listIndex xs x = some i) : xs.getD i "" = x := by
  induction xs generalizing i with
  | nil => simp [listIndex] at h
  | cons y ys ih =>
    by_cases hy : y = x
    · subst hy
      simp [listIndex] at h
      subst h
      rfl
    · simp [listIndex, hy] at h
      obtain ⟨j, hj, rfl⟩ := h
      simpa using ih j hj

/-- Total number of recorded violations across the per-severity buckets. -/
def violationsCount (v : List (String × List String)) : Nat :=
  (v.map (fun p => p.2.length)).sum

theorem violationsCount_append (v : List (String × List String)) (ms x : String) :
    violationsCount (dictSet v ms ((dictLookup v ms).getD [] ++ [x])) =
      violationsCount v + 1 := by
  induction v with
  | nil => simp [violationsCount, dictSet, dictLookup]
  | cons p rest ih =>
    obtain ⟨k0, v0⟩ := p
    by_cases hk : k0 = ms
    · subst hk
      simp [violationsCount, dictSet, dictLookup]
      omega
    · simp [violationsCount, dictSet, dictLookup, hk] at ih ⊢
      omega

/-! ### Claim theorems -/

/-- A plain atom token (a name with no operands), used as a concrete operand. -/
def atomA : Expr := .mk "a" .null .null none none false

/-- A second plain atom token. -/
def atomB : Expr := .mk "b" .null .null none none false

/-- The operator strings `getPrecedence` tests before `isAssignmentOp`. -/
def precedenceOps : List String :=
  ["*", "/", "%", "+", "-", "<<", ">>", "<", ">", "<=", ">=", "==", "!=",
   "&", "^", "|", "&&", "||", "?", ":"]

/-- The token texts for which cppcheckdata sets the `isAssignmentOp` flag. -/
def assignmentOps : List String :=
  ["=", "+=", "-=", "*=", "/=", "%=", "&=", "|=", "^=", "<<=", ">>="]

/-- C9: `getPrecedence` maps every operator token that has both AST operands
to its C-grammar bucket (multiplicative 12, additive 11, shifts 10,
relational 9, equality 8, `&` 7, `^` 6, `|` 5, `&&` 4, `||` 3, `?`/`:` 2,
assignment 1, comma 0) and returns 16 for `None` and for any token missing
an AST operand. -/
theorem getPrecedence_table :
    getPrecedence Expr.null = 16 ∧
    (∀ s o1 o2 vt vr b, o1 = Expr.null ∨ o2 = Expr.null →
      getPrecedence (.mk s o1 o2 vt vr b) = 16) ∧
    (∀ s o1 o2 vt vr b, o1 ≠ Expr.null → o2 ≠ Expr.null →
      (s ∈ ["*", "/", "%"] → getPrecedence (.mk s o1 o2 vt vr b) = 12) ∧
      (s ∈ ["+", "-"] → getPrecedence (.mk s o1 o2 vt vr b) = 11) ∧
      (s ∈ ["<<", ">>"] → getPrecedence (.mk s o1 o2 vt vr b) = 10) ∧
      (s ∈ ["<", ">", "<=", ">="] → getPrecedence (.mk s o1 o2 vt vr b) = 9) ∧
      (s ∈ ["==", "!="] → getPrecedence (.mk s o1 o2 vt vr b) = 8) ∧
      (s = "&" → getPrecedence (.mk s o1 o2 vt vr b) = 7) ∧
      (s = "^" → getPrecedence (.mk s o1 o2 vt vr b) = 6) ∧
      (s = "|" → getPrecedence (.mk s o1 o2 vt vr b) = 5) ∧
      (s = "&&" → getPrecedence (.mk s o1 o2 vt vr b) = 4) ∧
      (s = "||" → getPrecedence (.mk s o1 o2 vt vr b) = 3) ∧
      (s ∈ ["?", ":"] → getPrecedence (.mk s o1 o2 vt vr b) = 2) ∧
      (s ∈ assignmentOps → b = true → getPrecedence (.mk s o1 o2 vt vr b) = 1) ∧
      (s = "," → b = false → getPrecedence (.mk s o1 o2 vt vr b) = 0)) := by
  refine ⟨rfl, ?_, ?_⟩
  · intro s o1 o2 vt vr b h
    rcases h with h | h <;> subst h <;> simp [getPrecedence]
  · intro s o1 o2 vt vr b h1 h2
    have hno : ¬(o1 = Expr.null ∨ o2 = Expr.null) := by simp [h1, h2]
    refine ⟨?_, ?_, ?_, ?_, ?_, ?_, ?_, ?_, ?_, ?_, ?_, ?_, ?_⟩ <;>
      intro hm <;> first
      | (fin_cases hm <;> simp [getPrecedence, hno])
      | (intro hb <;> subst hb <;> fin_cases hm <;>
          simp [getPrecedence, hno, assignmentOps])
      | (subst hm <;> simp [getPrecedence, hno])
      | (intro hb <;> subst hm <;> subst hb <;> simp [getPrecedence, hno])

/-- Witness for C9, applying the table at concrete inputs from several
buckets. -/
theorem getPrecedence_table_witness :
    getPrecedence (Expr.mk "*" atomA atomB none none false) = 12 ∧
    getPrecedence (Expr.mk "&&" atomA atomB none none false) = 4 ∧
    getPrecedence (Expr.mk "=" atomA atomB none none true) = 1 ∧
    getPrecedence (Expr.mk "," atomA atomB none none false) = 0 ∧
    getPrecedence (Expr.mk "+" Expr.null atomB none none false) = 16 := by
  have h := getPrecedence_table
  have hA : atomA ≠ Expr.null := by decide
  have hB : atomB ≠ Expr.null := by decide
  exact ⟨(h.2.2 "*" atomA atomB none none false hA hB).1 (by decide),
    (h.2.2 "&&" atomA atomB none none false hA hB).2.2.2.2.2.2.2.2.1 rfl,
    (h.2.2 "=" atomA atomB none none true hA hB).2.2.2.2.2.2.2.2.2.2.2.1 (by decide) rfl,
    (h.2.2 "," atomA atomB none none false hA hB).2.2.2.2.2.2.2.2.2.2.2.2 rfl rfl,
    h.2.1 "+" Expr.null atomB none none false (Or.inl rfl)⟩

/-- C7: for every shift-expression token (`<<` or `>>`),
`getEssentialTypeCategory` returns exactly the category of the left operand,
so the result is unchanged under any replacement of the right operand. -/
theorem shift_inherits_left_category :
    ∀ s o1 o2 o2' vt vr b, s = "<<" ∨ s = ">>" →
      getEssentialTypeCategory (.mk s o1 o2 vt vr b) = getEssentialTypeCategory o1 ∧
      getEssentialTypeCategory (.mk s o1 o2 vt vr b) =
        getEssentialTypeCategory (.mk s o1 o2' vt vr b) := by
  intro s o1 o2 o2' vt vr b h
  have key : ∀ o2'' : Expr,
      getEssentialTypeCategory (.mk s o1 o2'' vt vr b) = getEssentialTypeCategory o1 := by
    intro o2''
    rcases h with h | h <;> subst h <;> simp [getEssentialTypeCategory]
  exact ⟨key o2, (key o2).trans (key o2').symm⟩

/-- Witness for C7 at a concrete shift over a `bool`-categorized left operand
(a comparison), with two different right operands. -/
theorem shift_inherits_left_category_witness :
    getEssentialTypeCategory
      (Expr.mk "<<" (Expr.mk "<" atomA atomB none none false) atomA none none false) =
        some "bool" ∧
    getEssentialTypeCategory
      (Expr.mk "<<" (Expr.mk "<" atomA atomB none none false) atomA none none false) =
      getEssentialTypeCategory
        (Expr.mk "<<" (Expr.mk "<" atomA atomB none none false) atomB none none false) := by
  have h := shift_inherits_left_category "<<" (Expr.mk "<" atomA atomB none none false)
    atomA atomB none none false (Or.inl rfl)
  exact ⟨h.1.trans (by decide), h.2⟩

/-- C8: for a binary arithmetic/bitwise/shift/conditional expression that
`getEssentialType` handles (no attached variable, both operands present), a
pointer-typed operand makes the result `None`, and otherwise two operand
types from the rank list yield the higher-ranked of the two. -/
theorem essentialType_binary_rank :
    ∀ s o1 o2 vt b,
      ["+", "-", "*", "/", "%", "&", "|", "^", ">>", "<<", "?", ":"].contains s = true →
      o1 ≠ Expr.null → o2 ≠ Expr.null →
      ((pointerPositive o1 = true ∨ pointerPositive o2 = true →
          getEssentialType (.mk s o1 o2 vt none b) = none) ∧
        (∀ t1 t2 i1 i2,
          pointerPositive o1 = false → pointerPositive o2 = false →
          getEssentialType o1 = some t1 → getEssentialType o2 = some t2 →
          listIndex essentialTypes t1 = some i1 →
          listIndex essentialTypes t2 = some i2 →
          getEssentialType (.mk s o1 o2 vt none b) =
            some (if i1 ≤ i2 then t2 else t1))) := by
  intro s o1 o2 vt b hs h1 h2
  constructor
  · intro hp
    simp only [getEssentialType]
    rw [if_pos ⟨h1, h2, hs⟩]
    rcases hp with hp | hp
    · simp [hp]
    · cases hq : pointerPositive o1 <;> simp [hp, hq]
  · intro t1 t2 i1 i2 hp1 hp2 ht1 ht2 hi1 hi2
    simp only [getEssentialType]
    rw [if_pos ⟨h1, h2, hs⟩]
    simp only [hp1, Bool.false_eq_true, if_false, hp2, ht1, ht2, hi1, hi2]
    rw [listIndex_getD _ _ _ hi1, listIndex_getD _ _ _ hi2]
    by_cases hij : i1 ≤ i2 <;> simp [hij, ge_iff_le]

/-- A variable token declared `int`. -/
def intVar : Expr := .mk "x" .null .null none (some ⟨[⟨"int", true, none⟩]⟩) false

/-- A variable token declared `char`. -/
def charVar : Expr := .mk "y" .null .null none (some ⟨[⟨"char", true, none⟩]⟩) false

/-- Witness for C8: `int + char` has essential type `int` (the higher rank). -/
theorem essentialType_binary_rank_witness :
    getEssentialType (Expr.mk "+" intVar charVar none none false) = some "int" := by
  have h := (essentialType_binary_rank "+" intVar charVar none false (by decide)
      (by decide) (by decide)).2 "int" "char" 3 1 rfl rfl rfl rfl rfl rfl
  simpa using h

/-- A verify-mode checker whose registry globally suppresses rule 16.3. -/
def verifySuppChecker : Checker :=
  { verify := true, verify_actual := [], suppressedRules := [(1603, [(none, [none])])],
    suppressionStats := [], ruleTexts := [], violations := [], filePfx := none,
    output := [] }

/-- The same verify-mode checker with an empty suppression registry. -/
def verifyFreeChecker : Checker := { verifySuppChecker with suppressedRules := [] }

/-- A rule check that detects one violation of rule 16.3 at line 5. -/
def oneViolationCheck (c : Checker) : Checker := reportError id c ⟨"test.c", 5⟩ 16 3

/-- Counterexample for C1: the same detecting check dispatched through
`executeCheck` in verify mode records the violation when the registry is
empty and records nothing under a global sentinel, so the set of actual
verify results is not independent of the suppression registry. -/
theorem verify_actual_depends_on_registry :
    (executeCheck verifySuppChecker 1603 oneViolationCheck).verify_actual = [] ∧
    (executeCheck verifyFreeChecker 1603 oneViolationCheck).verify_actual = ["5:16.3"] :=
  ⟨rfl, rfl⟩

/-- C1 (amended): in verify mode `reportError` itself bypasses the
suppression registry entirely — it always appends `linenr:major.minor` to
`verify_actual`, whatever the registry holds — but `executeCheck` skips a
globally suppressed rule's check function even in verify mode, so
`verify_actual` still depends on global suppression sentinels. -/
theorem verify_mode_reporting_amended :
    ∀ basename c loc num1 num2,
      c.verify = true →
      ((reportError basename c loc num1 num2).verify_actual =
        c.verify_actual ++
          [toString loc.linenr ++ ":" ++ toString num1 ++ "." ++ toString num2]) ∧
      (∀ sr, (reportError basename { c with suppressedRules := sr } loc
          num1 num2).verify_actual =
        (reportError basename c loc num1 num2).verify_actual) ∧
      (∀ f rule, isRuleGloballySuppressed c.suppressedRules rule = true →
        executeCheck c rule f = c) := by
  intro basename c loc num1 num2 hv
  refine ⟨by simp [reportError, hv], by intro sr; simp [reportError, hv], ?_⟩
  intro f rule h
  simp [executeCheck, h]

/-- Witness for C1 (amended) at a concrete verify-mode checker. -/
theorem verify_mode_reporting_amended_witness :
    (reportError id verifySuppChecker ⟨"test.c", 5⟩ 16 3).verify_actual = ["5:16.3"] := by
  have h := verify_mode_reporting_amended id verifySuppChecker ⟨"test.c", 5⟩ 16 3 rfl
  simpa using h.1

/-- A normal-mode checker with a non-empty rule-text catalog that lacks an
entry for rule 16.3 (hundreds key 1603). -/
def loadedCatalogChecker : Checker :=
  { verify := false, verify_actual := [], suppressedRules := [], suppressionStats := [],
    ruleTexts := [(101, ⟨"Rule text for 1.1", "Required", "style"⟩)],
    violations := [], filePfx := none, output := [] }

/-- Counterexample for C2: with the catalog loaded (non-empty) but missing
the entry for rule 16.3, a detected and non-suppressed violation is neither
sent to the sink nor counted in the violations aggregate. -/
theorem missing_ruletext_entry_drops_violation :
    (reportError id loadedCatalogChecker ⟨"test.c", 5⟩ 16 3).output = [] ∧
    (reportError id loadedCatalogChecker ⟨"test.c", 5⟩ 16 3).violations = [] ∧
    loadedCatalogChecker.ruleTexts ≠ [] := by
  refine ⟨rfl, rfl, by decide⟩

/-- C2 (amended): in normal mode a detected, non-suppressed violation is
reported to the sink and counted when the rule-text catalog is entirely
absent (generic message) or contains the rule's entry; but when the catalog
is non-empty and lacks the entry for that rule number, `reportError` returns
with no sink event and no count. -/
theorem ruletext_reporting_amended :
    ∀ basename c loc num1 num2,
      c.verify = false →
      isRuleSuppressed c.filePfx basename c.suppressedRules (some loc.file)
        (some loc.linenr) (num1 * 100 + num2) = false →
      ((c.ruleTexts = [] →
          (reportError basename c loc num1 num2).output =
            c.output ++ [⟨loc, "style",
              "misra violation (use --rule-texts=<file> to get proper output)", "misra",
              "c2012-" ++ toString num1 ++ "." ++ toString num2, "Undefined"⟩] ∧
          violationsCount (reportError basename c loc num1 num2).violations =
            violationsCount c.violations + 1) ∧
        (∀ rt, dictLookup c.ruleTexts (num1 * 100 + num2) = some rt →
          (reportError basename c loc num1 num2).output =
            c.output ++ [⟨loc, rt.cppcheck_severity, rt.text, "misra",
              "c2012-" ++ toString num1 ++ "." ++ toString num2,
              if rt.misra_severity ≠ "" then rt.misra_severity else "Undefined"⟩] ∧
          violationsCount (reportError basename c loc num1 num2).violations =
            violationsCount c.violations + 1) ∧
        (c.ruleTexts ≠ [] → dictLookup c.ruleTexts (num1 * 100 + num2) = none →
          reportError basename c loc num1 num2 = c)) := by
  intro basename c loc num1 num2 hv hsupp
  refine ⟨?_, ?_, ?_⟩
  · intro hempty
    constructor <;>
      simp [reportError, hv, hsupp, hempty, dictLookup, violationsCount_append]
  · intro rt hrt
    constructor <;>
      simp [reportError, hv, hsupp, hrt, violationsCount_append]
  · intro hne hnone
    simp [reportError, hv, hsupp, hnone, List.length_eq_zero, hne]

/-- A normal-mode checker with no rule-text catalog at all. -/
def emptyCatalogChecker : Checker :=
  { verify := false, verify_actual := [], suppressedRules := [], suppressionStats := [],
    ruleTexts := [], violations := [], filePfx := none, output := [] }

/-- Witness for C2 (amended): with an empty catalog the generic message is
emitted and counted. -/
theorem ruletext_reporting_amended_witness :
    (reportError id emptyCatalogChecker ⟨"test.c", 5⟩ 16 3).output =
      [⟨⟨"test.c", 5⟩, "style",
        "misra violation (use --rule-texts=<file> to get proper output)", "misra",
        "c2012-" ++ toString 16 ++ "." ++ toString 3, "Undefined"⟩] ∧
    violationsCount (reportError id emptyCatalogChecker ⟨"test.c", 5⟩ 16 3).violations =
      1 := by
  have h := (ruletext_reporting_amended id emptyCatalogChecker ⟨"test.c", 5⟩ 16 3
    rfl rfl).1 rfl
  exact ⟨by simpa using h.1, by simpa using h.2⟩

/-- C3: `addSuppressedRule` is idempotent: a second call with identical
`(rule, file, line, symbol)` arguments leaves the registry exactly in the
state produced by one call, and one call on the empty registry stores
exactly one item for the tuple in the per-file entry list. -/
theorem addSuppressedRule_idempotent :
    ∀ norm sr ruleNum fileName lineNumber symbolName,
      addSuppressedRule norm
          (addSuppressedRule norm sr ruleNum fileName lineNumber symbolName)
          ruleNum fileName lineNumber symbolName =
        addSuppressedRule norm sr ruleNum fileName lineNumber symbolName ∧
      ((dictLookup ((dictLookup
            (addSuppressedRule norm [] ruleNum fileName lineNumber symbolName)
            ruleNum).getD []) (fileName.map norm)).getD []).count
          (mkLineSymbol lineNumber symbolName) = 1 := by
  intro norm sr ruleNum fileName lineNumber symbolName
  constructor
  · cases h1 : dictLookup sr ruleNum with
    | none =>
      simp only [addSuppressedRule, h1, dictLookup_dictSet_self]
      simp [dictLookup, addRuleItem_singleton,
        dictSet_lookup_eq _ _ _ (by simp [dictLookup] :
          dictLookup [(fileName.map norm, [mkLineSymbol lineNumber symbolName])]
            (fileName.map norm) = some [mkLineSymbol lineNumber symbolName]),
        dictSet_lookup_eq _ _ _ (dictLookup_dictSet_self sr ruleNum
          [(fileName.map norm, [mkLineSymbol lineNumber symbolName])])]
    | some fd =>
      cases h2 : dictLookup fd (fileName.map norm) with
      | none =>
        simp only [addSuppressedRule, h1, h2, dictLookup_dictSet_self]
        simp [addRuleItem_singleton,
          dictSet_lookup_eq _ _ _ (dictLookup_dictSet_self fd (fileName.map norm)
            [mkLineSymbol lineNumber symbolName]),
          dictSet_lookup_eq _ _ _ (dictLookup_dictSet_self sr ruleNum
            (dictSet fd (fileName.map norm) [mkLineSymbol lineNumber symbolName]))]
      | some lst =>
        simp only [addSuppressedRule, h1, h2, dictLookup_dictSet_self]
        simp [addRuleItem_absorbed,
          dictSet_lookup_eq _ _ _ (dictLookup_dictSet_self fd (fileName.map norm)
            (addRuleItem lst (mkLineSymbol lineNumber symbolName))),
          dictSet_lookup_eq _ _ _ (dictLookup_dictSet_self sr ruleNum
            (dictSet fd (fileName.map norm)
              (addRuleItem lst (mkLineSymbol lineNumber symbolName))))]
  · simp [addSuppressedRule, dictLookup, dictSet, List.count_cons]

/-- C4: a global suppression sentinel (file-name key `None`) for a rule makes
`isRuleSuppressed` return true for that rule at every queried file path and
every queried line number. -/
theorem global_suppression_suppresses_everywhere :
    ∀ filePfx basename sr file_path linenr ruleNum,
      isRuleGloballySuppressed sr ruleNum = true →
      isRuleSuppressed filePfx basename sr file_path linenr ruleNum = true := by
  intro filePfx basename sr file_path linenr ruleNum h
  unfold isRuleGloballySuppressed at h
  unfold isRuleSuppressed
  cases h1 : dictLookup sr ruleNum with
  | none => rw [h1] at h; exact absurd h (by simp)
  | some fd =>
    rw [h1] at h
    simp at h
    simp [h1, h]

/-- A registry carrying only a global sentinel for rule 15.2. -/
def globalSuppressionRegistry : SuppressedRules := [(1502, [(none, [none])])]

/-- Witness for C4 at a concrete registry, path and line. -/
theorem global_suppression_suppresses_everywhere_witness :
    isRuleSuppressed none id globalSuppressionRegistry (some "any/path.c") (some 42)
      1502 = true :=
  global_suppression_suppresses_everywhere none id globalSuppressionRegistry
    (some "any/path.c") (some 42) 1502 (by decide)

/-- C10: per-file suppression entries match on the line number only: with no
global or whole-file sentinel in play, `isRuleSuppressed` returns exactly
whether some stored `(line, symbol)` entry has `line = linenr` (the symbol is
ignored); hence a registry whose entries all have line `None` and a symbol
never suppresses a query with an integer line number. -/
theorem isRuleSuppressed_ignores_symbol :
    ∀ filePfx basename sr file_path linenr ruleNum fd lst,
      dictLookup sr ruleNum = some fd →
      dictContains fd none = false →
      dictLookup fd (computeFilename filePfx basename file_path) = some lst →
      (none : RuleItem) ∉ lst →
      (isRuleSuppressed filePfx basename sr file_path linenr ruleNum =
        lst.any (fun each =>
          match each with
          | some e => e.1 = linenr
          | none => false)) ∧
      ((∀ e ∈ lst, ∃ sym, e = some ((none : Option Int), sym)) →
        ∀ n : Int, linenr = some n →
        isRuleSuppressed filePfx basename sr file_path linenr ruleNum = false) := by
  intro filePfx basename sr file_path linenr ruleNum fd lst h1 h2 h3 h4
  have key : isRuleSuppressed filePfx basename sr file_path linenr ruleNum =
      lst.any (fun each =>
        match each with
        | some e => e.1 = linenr
        | none => false) := by
    unfold isRuleSuppressed
    simp [h1, h2, h3, h4]
  refine ⟨key, ?_⟩
  intro hall n hn
  subst hn
  rw [key]
  simp only [List.any_eq_false]
  intro e he
  obtain ⟨sym, rfl⟩ := hall e he
  simp

/-- A registry with a single entry carrying no line but a symbol name. -/
def symbolOnlyRegistry : SuppressedRules :=
  [(1603, [(some "f.c", [some ((none : Option Int), some "sym")])])]

/-- Witness for C10: the symbol-only entry does not suppress line 7. -/
theorem isRuleSuppressed_ignores_symbol_witness :
    isRuleSuppressed none id symbolOnlyRegistry (some "f.c") (some 7) 1603 = false := by
  have h := isRuleSuppressed_ignores_symbol none id symbolOnlyRegistry (some "f.c")
    (some 7) 1603 [(some "f.c", [some (none, some "sym")])]
    [some (none, some "sym")] rfl rfl rfl (by decide)
  exact h.2 (by intro e he; simp at he; exact ⟨some "sym", he⟩) 7 rfl

/-- The identity of an `executeCheck` call site in the execution trace. -/
def ccKey (cc : CheckCall) : Nat × String := (cc.num, cc.name)

theorem checkCallTrace_count_ne (supp : SuppressedRules) (cfgN : Nat) (cc : CheckCall)
    (p : Nat × String) (hne : ccKey cc ≠ p) :
    (checkCallTrace supp cfgN cc).count p = 0 := by
  unfold checkCallTrace
  split
  · rfl
  · split
    · rfl
    · simp only [ccKey] at hne
      simp [List.count_cons, Ne.symm hne]

theorem checkCallTrace_count_self (supp : SuppressedRules) (cfgN : Nat) (cc : CheckCall) :
    (checkCallTrace supp cfgN cc).count (ccKey cc) =
      (checkCallTrace supp cfgN cc).length := by
  unfold checkCallTrace
  split
  · rfl
  · split
    · rfl
    · simp [ccKey]

theorem checkCallTrace_length (supp : SuppressedRules) (cfgN : Nat) (cc : CheckCall) :
    (checkCallTrace supp cfgN cc).length =
      if cc.raw ∧ cfgN ≠ 1 then 0
      else if isRuleGloballySuppressed supp cc.num then 0 else 1 := by
  unfold checkCallTrace
  split
  · simp [*]
  · split <;> simp_all

theorem count_flatMap_not_mem (supp : SuppressedRules) (cfgN : Nat)
    (checks : List CheckCall) (p : Nat × String) (h : ∀ cc ∈ checks, ccKey cc ≠ p) :
    (checks.flatMap (checkCallTrace supp cfgN)).count p = 0 := by
  induction checks with
  | nil => rfl
  | cons c cs ih =>
    simp only [List.flatMap_cons, List.count_append]
    rw [checkCallTrace_count_ne _ _ _ _ (h c (by simp)),
      ih (fun cc hcc => h cc (by simp [hcc]))]

theorem count_flatMap_checks (supp : SuppressedRules) (cfgN : Nat)
    (checks : List CheckCall) (cc : CheckCall) (hmem : cc ∈ checks)
    (hnd : (checks.map ccKey).Nodup) :
    (checks.flatMap (checkCallTrace supp cfgN)).count (ccKey cc) =
      (checkCallTrace supp cfgN cc).length := by
  induction checks with
  | nil => simp at hmem
  | cons c cs ih =>
    simp only [List.flatMap_cons, List.count_append]
    simp only [List.map_cons, List.nodup_cons] at hnd
    rcases List.mem_cons.mp hmem with rfl | hmem'
    · rw [checkCallTrace_count_self,
        count_flatMap_not_mem supp cfgN cs (ccKey cc)
          (fun cc' hcc' heq => hnd.1 (heq ▸ List.mem_map_of_mem ccKey hcc'))]
      omega
    · rw [checkCallTrace_count_ne supp cfgN c (ccKey cc)
          (fun heq => hnd.1 (heq ▸ List.mem_map_of_mem ccKey hmem')),
        ih hmem' hnd.2]
      omega

/-- The registry produced by one dump-file suppression of rule 3.1 with no
file, line or symbol: a global sentinel for hundreds key 301. -/
def rawRuleSuppressedRegistry : SuppressedRules :=
  addSuppressedRule id [] 301 none none none

/-- Counterexample for C5: for a dump whose suppressions globally suppress
rule 3.1, the raw-token rule `misra_3_1` executes zero times — not exactly
once — while without that suppression it executes once; so the per-dump
execution count is not determined by the configuration count alone. -/
theorem raw_rule_skipped_when_globally_suppressed :
    (parseDumpTrace rawRuleSuppressedRegistry 2).count (301, "misra_3_1") = 0 ∧
    (parseDumpTrace [] 2).count (301, "misra_3_1") = 1 := by
  constructor <;> rfl

/-- C5 (amended): for a dump with at least one configuration, every
raw-token-scoped rule executes exactly once and every configuration-scoped
rule once per configuration — unless the rule is globally suppressed, in
which case `executeCheck` skips it and it executes zero times. -/
theorem parseDump_execution_counts :
    ∀ supp numConfigs cc, cc ∈ parseDumpChecks → 1 ≤ numConfigs →
      (parseDumpTrace supp numConfigs).count (cc.num, cc.name) =
        if isRuleGloballySuppressed supp cc.num then 0
        else if cc.raw then 1 else numConfigs := by
  intro supp n cc hmem hn
  have hnd : (parseDumpChecks.map ccKey).Nodup := by decide
  have step : ∀ m, (parseDumpTrace supp m).count (ccKey cc) =
      if isRuleGloballySuppressed supp cc.num then 0
      else if cc.raw then (if 1 ≤ m then 1 else 0) else m := by
    intro m
    induction m with
    | zero =>
      simp only [parseDumpTrace, List.range_zero, List.flatMap_nil, List.count_nil]
      split_ifs <;> omega
    | succ k ih =>
      have hsplit : parseDumpTrace supp (k + 1) =
          parseDumpTrace supp k ++ parseDumpChecks.flatMap (checkCallTrace supp (k + 1)) := by
        simp [parseDumpTrace, List.range_succ]
      rw [hsplit, List.count_append, ih,
        count_flatMap_checks supp (k + 1) _ cc hmem hnd, checkCallTrace_length]
      split_ifs <;> (try simp_all) <;> omega
  rw [show ((cc.num, cc.name) : Nat × String) = ccKey cc from rfl, step n]
  simp [hn]

/-- Witness for C5 (amended): with an empty registry and two configurations,
the raw-token 16.3 check executes once and the configuration-scoped 10.1
check twice. -/
theorem parseDump_execution_counts_witness :
    (parseDumpTrace [] 2).count (1603, "misra_16_3") = 1 ∧
    (parseDumpTrace [] 2).count (1001, "misra_10_1") = 2 := by
  constructor
  · have h := parseDump_execution_counts [] 2 ⟨1603, "misra_16_3", true⟩
      (by decide) (by decide)
    simpa [isRuleGloballySuppressed, dictLookup] using h
  · have h := parseDump_execution_counts [] 2 ⟨1001, "misra_10_1", false⟩
      (by decide) (by decide)
    simpa [isRuleGloballySuppressed, dictLookup] using h

/-- C6: on the raw token stream
`switch ( x ) { case 1 : foo ( ) ; case 2 : bar ( ) ; }` the fallthrough
state machine `misra_16_3` reports a violation at the `case 2` token
(index 12); on the same stream with `break ;` inserted immediately before
`case 2`, it reports no violation at that token (index 14). -/
theorem misra_16_3_fallthrough_example :
    12 ∈ misra_16_3 fallthroughStream ∧ 14 ∉ misra_16_3 fallthroughStreamBreak := by
  decide

end Misra
